import Mathlib

/-!
Verification of the tls-banner-grab core: the key-exchange parameter
decoder and handshake recorder (package ztls) and the connection upgrade
state machine (package zlib, conn.go), shallowly embedded in Lean.

Bytes are modelled as `Nat` values (< 256 in well-formed buffers), byte
buffers as `List Nat`, arbitrary-precision integers (Go `big.Int`) as
`Nat` magnitudes, and Go strings as Lean `String`.  External
collaborators (the ztls TLS engine, the regex-bounded network reads) are
supplied as oracle values describing the outcome of the one call the
code makes into them; everything downstream of those calls is embedded
from the source.
-/

namespace ZGrab

/-! ## Key-exchange parameter decoder (ztls, DHParams.unmarshal) -/

/-- Go `big.Int.SetBytes`: interpret a byte slice as an unsigned
big-endian magnitude. -/
def beBytesToNat (bs : List Nat) : Nat :=
  bs.foldl (fun acc b => acc * 256 + b) 0

/-- Decoded Diffie-Hellman parameters (ztls `DHParams`): prime, generator
and server public value as unsigned magnitudes. -/
structure DHParams where
  P : Nat
  G : Nat
  Ys : Nat
deriving DecidableEq, Repr

/-- One step of `DHParams.unmarshal`: if fewer than 2 bytes remain, fail;
otherwise read a 16-bit big-endian length (`binary.BigEndian.Uint16`),
fail if the declared length exceeds the remaining bytes, else split off
that many bytes.  This is the block the Go source repeats three times. -/
def readField : List Nat → Option (List Nat × List Nat)
  | b0 :: b1 :: rest =>
      if rest.length < b0 * 256 + b1 then none
      else some (rest.take (b0 * 256 + b1), rest.drop (b0 * 256 + b1))
  | _ => none

/-- ztls `DHParams.unmarshal`: three length-prefixed fields (prime,
generator, server public value); `none` models `ok=false`.  Trailing
bytes after the third field are ignored, as in the source. -/
def DHParams.unmarshal (buf : List Nat) : Option DHParams :=
  match readField buf with
  | none => none
  | some (pBytes, buf1) =>
    match readField buf1 with
    | none => none
    | some (gBytes, buf2) =>
      match readField buf2 with
      | none => none
      | some (ysBytes, _) =>
        some ⟨beBytesToNat pBytes, beBytesToNat gBytes, beBytesToNat ysBytes⟩

/-- Encode one well-formed 16-bit big-endian length-prefixed field. -/
def encField (f : List Nat) : List Nat :=
  f.length / 256 :: f.length % 256 :: f

/-- A buffer consisting of exactly three length-prefixed fields. -/
def encDH3 (p g ys : List Nat) : List Nat :=
  encField p ++ (encField g ++ encField ys)

/-- The condition under which one field read fails: fewer than 2 bytes
remain where a length prefix is expected, or the declared length exceeds
the remaining bytes. -/
def fieldTruncated : List Nat → Prop
  | b0 :: b1 :: rest => rest.length < b0 * 256 + b1
  | _ => True

/-- A buffer is truncated for the DH decoder when one of its three field
reads hits a truncation condition. -/
def dhTruncated (buf : List Nat) : Prop :=
  fieldTruncated buf ∨
  ∃ f1 r1, readField buf = some (f1, r1) ∧
    (fieldTruncated r1 ∨
     ∃ f2 r2, readField r1 = some (f2, r2) ∧ fieldTruncated r2)

/-! ## Handshake recorder (ztls, ServerHandshake.setSkx) -/

/-- ztls `ServerKeyExchange`: the raw key-exchange bytes. -/
structure ServerKeyExchange where
  key : List Nat
deriving DecidableEq, Repr

/-- ztls `rsaExportParams`: the raw pre-split exponent and modulus bytes
(its `unmarshal` lives outside the shown sources, so it is a parameter of
the recorder below). -/
structure RsaExportParamsRaw where
  rawExponent : List Nat
  rawModulus : List Nat
deriving DecidableEq, Repr

/-- ztls `RSAExportParams` as logged: modulus magnitude, 32-bit exponent
and modulus bit length. -/
structure RSAExportParams where
  modulus : Nat
  exponent : Nat
  length : Nat
deriving DecidableEq, Repr

/-- ztls `rsaExportParams.MakeLog`: fold the exponent bytes into a 32-bit
unsigned integer by shift-and-OR, parse the modulus bytes as an unsigned
big-endian magnitude, record its bit length. -/
def RsaExportParamsRaw.MakeLog (p : RsaExportParamsRaw) : RSAExportParams :=
  let exponent :=
    p.rawExponent.foldl (fun acc b => (acc * 256 + b % 256) % 4294967296) 0
  let modulus := beBytesToNat p.rawModulus
  ⟨modulus, exponent, Nat.log2 modulus + if modulus = 0 then 0 else 1⟩

/-- The fields of ztls `ServerHandshake` touched by `setSkx` (server
hello, certificates and finished are set elsewhere and elided). -/
structure ServerHandshake where
  serverKeyExchange : Option ServerKeyExchange
  rsaExportParams : Option RSAExportParams
  dhExportParams : Option DHParams
  dhParams : Option DHParams
deriving DecidableEq, Repr

/-- ztls `cipherInList`: membership of a cipher-suite id in a static
list.  Modelled from the spec: the helper's body is outside the shown
sources; the spec describes family membership as a static list lookup. -/
def cipherInList (cipher : Nat) (list : List Nat) : Bool :=
  list.contains cipher

/-- The package-level cipher family lists `RSAExportCiphers`,
`DHEExportCiphers`, `DHECiphers` (their concrete elements live outside
the shown sources, so the recorder is parametric in them). -/
structure CipherFamilies where
  rsaExportCiphers : List Nat
  dheExportCiphers : List Nat
  dheCiphers : List Nat
deriving DecidableEq, Repr

/-- ztls `ServerHandshake.setSkx`: record the raw key-exchange bytes,
then dispatch on the negotiated cipher suite's family — RSA-export first,
else DHE-export, else DHE — decoding the blob with the matching decoder;
a failed decode leaves the field absent and there is no error channel.
`rsaUnmarshal` stands for `rsaExportParams.unmarshal` (outside the shown
sources); `none` models its `false` return. -/
def ServerHandshake.setSkx (fams : CipherFamilies)
    (rsaUnmarshal : List Nat → Option RsaExportParamsRaw)
    (hs : ServerHandshake) (skxKey : List Nat) (cipher : Nat) :
    ServerHandshake :=
  let hs := { hs with serverKeyExchange := some ⟨skxKey⟩ }
  if cipherInList cipher fams.rsaExportCiphers then
    match rsaUnmarshal skxKey with
    | some p => { hs with rsaExportParams := some p.MakeLog }
    | none => hs
  else if cipherInList cipher fams.dheExportCiphers then
    match DHParams.unmarshal skxKey with
    | some p => { hs with dhExportParams := some p }
    | none => hs
  else if cipherInList cipher fams.dheCiphers then
    match DHParams.unmarshal skxKey with
    | some p => { hs with dhParams := some p }
    | none => hs
  else hs

/-- Number of key-exchange parameter fields populated in a handshake
log. -/
def ServerHandshake.paramsPopulated (hs : ServerHandshake) : Nat :=
  (if hs.rsaExportParams.isSome then 1 else 0) +
  (if hs.dhExportParams.isSome then 1 else 0) +
  (if hs.dhParams.isSome then 1 else 0)

/-! ## ExportSignatureAlgorithm JSON serialization (ztls) -/

/-- The fixed ordered hash-name table `exportHashes`. -/
def exportHashes : List String :=
  ["MD5", "SHA-1", "SHA-224", "SHA-256", "SHA-384", "SHA-512"]

/-- The fixed ordered algorithm-name table `exportAlgorithms`. -/
def exportAlgorithms : List String :=
  ["anon", "RSA", "DSA", "ECDSA"]

/-- The auxiliary record `ExportSignatureAlgorithm.MarshalJSON` hands to
the JSON encoder: numeric value, hash name (empty when out of table) and
id, algorithm name (empty when out of table) and id. -/
structure ExportSigAlgJSON where
  value : Nat
  hashName : String
  hashID : Nat
  algName : String
  algID : Nat
deriving DecidableEq, Repr

/-- ztls `ExportSignatureAlgorithm.MarshalJSON` on a 16-bit value:
`hash = byte(value >> 8)`, `alg = byte(value)`; a name is looked up only
when its id is below the table length, otherwise it stays the empty
string (and is omitted by `omitempty`). -/
def ExportSignatureAlgorithm.marshalJSON (value : Nat) : ExportSigAlgJSON :=
  let hash := value / 256 % 256
  let alg := value % 256
  { value := value
    hashName := if hash < exportHashes.length then exportHashes.getD hash "" else ""
    hashID := hash
    algName := if alg < exportAlgorithms.length then exportAlgorithms.getD alg "" else ""
    algID := alg }

/-! ## Connection upgrade state machine (zlib, conn.go) -/

/-- The named package-level cipher-suite lists of ztls that conn.go
assigns to `tlsConfig.CipherSuites`.  Their elements live outside the
shown sources; conn.go only ever assigns one of these nine named values,
so they are modelled as distinct tags. -/
inductive NamedCipherList
  | dhe | rsa512Export | dheExport
  | chrome | chromeNoDHE | firefox | firefoxNoDHE | safari | safariNoDHE
deriving DecidableEq, Repr

/-- `ztls.VersionSSL30`. -/
def versionSSL30 : Nat := 768

/-- The fields of `ztls.Config` that `Conn.TLSHandshake` sets.
`cipherSuites = none` models the nil zero value (engine default list). -/
structure TLSConfigModel where
  insecureSkipVerify : Bool
  minVersion : Nat
  maxVersion : Nat
  heartbeatEnabled : Bool
  clientDSAEnabled : Bool
  serverName : String
  cipherSuites : Option NamedCipherList
  forceSuites : Bool
  extendedRandom : Bool
deriving DecidableEq, Repr

/-- Opaque heartbleed log returned by the external
`ztls.Conn.GetHeartbleedLog`. -/
structure HeartbleedLog where
  tag : Nat
deriving DecidableEq, Repr

/-- The accumulating result record `GrabData` (fields the modelled
operations touch; string fields default to Go's zero value `""`). -/
structure GrabData where
  banner : String
  write : String
  read : String
  startTLS : String
  tlsHandshake : Option ServerHandshake
  heartbleed : Option HeartbleedLog
deriving DecidableEq, Repr

/-- The connection upgrade state machine `zlib.Conn` (fields the
modelled operations read or write). -/
structure Conn where
  isTls : Bool
  maxTlsVersion : Nat
  domain : String
  noSNI : Bool
  onlyDHE : Bool
  onlyExports : Bool
  onlyExportsDH : Bool
  chromeCiphers : Bool
  chromeNoDHE : Bool
  firefoxCiphers : Bool
  firefoxNoDHECiphers : Bool
  safariCiphers : Bool
  safariNoDHECiphers : Bool
  extendedRandom : Bool
  grabData : GrabData
deriving DecidableEq, Repr

/-- Errors the modelled Conn operations return (Go `error` values). -/
inductive ConnError
  | repeatHandshake
  | startTLSAfterTLS
  | startTLSNotSupported
  | badStartTLSReturnCode
  | heartbleedBeforeHandshake
  | ioError (msg : String)
  | ztlsHandshake (msg : String)
deriving DecidableEq, Repr

/-- Result of the external `ztls.Conn.Handshake` call: `none` for
success, the distinguished `ztls.ErrUnimplementedCipher` sentinel, or any
other failure. -/
inductive ZtlsHsError
  | unimplementedCipher
  | other (msg : String)
deriving DecidableEq, Repr

/-- Oracle for the one call into the external TLS engine: the handshake
result and the log `GetHandshakeLog` returns afterwards. -/
structure HandshakeOracle where
  err : Option ZtlsHsError
  log : ServerHandshake
deriving DecidableEq, Repr

/-- The configuration `Conn.TLSHandshake` builds (conn.go lines 394-436):
fixed fields first, then the cipher-policy flags checked one after
another in independent `if` statements, each assignment overwriting the
previous one; the two Safari branches additionally set `ForceSuites`. -/
def buildTLSConfig (c : Conn) : TLSConfigModel :=
  let cfg : TLSConfigModel :=
    { insecureSkipVerify := true
      minVersion := versionSSL30
      maxVersion := c.maxTlsVersion
      heartbeatEnabled := true
      clientDSAEnabled := true
      serverName := if !c.noSNI && c.domain ≠ "" then c.domain else ""
      cipherSuites := none
      forceSuites := false
      extendedRandom := false }
  let cfg := if c.onlyDHE then { cfg with cipherSuites := some .dhe } else cfg
  let cfg := if c.onlyExports then { cfg with cipherSuites := some .rsa512Export } else cfg
  let cfg := if c.onlyExportsDH then { cfg with cipherSuites := some .dheExport } else cfg
  let cfg := if c.chromeCiphers then { cfg with cipherSuites := some .chrome } else cfg
  let cfg := if c.chromeNoDHE then { cfg with cipherSuites := some .chromeNoDHE } else cfg
  let cfg := if c.firefoxCiphers then { cfg with cipherSuites := some .firefox } else cfg
  let cfg := if c.firefoxNoDHECiphers then { cfg with cipherSuites := some .firefoxNoDHE } else cfg
  let cfg := if c.safariCiphers then
    { cfg with cipherSuites := some .safari, forceSuites := true } else cfg
  let cfg := if c.safariNoDHECiphers then
    { cfg with cipherSuites := some .safariNoDHE, forceSuites := true } else cfg
  if c.extendedRandom then { cfg with extendedRandom := true } else cfg

/-- The cipher-suite list the *last* set policy flag in conn.go's fixed
check order selects (later `if` statements overwrite earlier ones), or
`none` (engine default) when no flag is set.  This definition follows
the amended reading of the spec's precedence sentence, to be compared
with `buildTLSConfig`. -/
def lastSetFlagSuites (c : Conn) : Option NamedCipherList :=
  if c.safariNoDHECiphers then some .safariNoDHE
  else if c.safariCiphers then some .safari
  else if c.firefoxNoDHECiphers then some .firefoxNoDHE
  else if c.firefoxCiphers then some .firefox
  else if c.chromeNoDHE then some .chromeNoDHE
  else if c.chromeCiphers then some .chrome
  else if c.onlyExportsDH then some .dheExport
  else if c.onlyExports then some .rsa512Export
  else if c.onlyDHE then some .dhe
  else none

/-- `Conn.TLSHandshake`: an already-TLS connection gets the repeat-
handshake error with nothing mutated; otherwise the config is built, the
connection is marked TLS before the engine handshake runs, the
`ErrUnimplementedCipher` result is absorbed when `ForceSuites` is set,
and the handshake log is attached to `grabData` regardless of the
handshake result. -/
def Conn.tlsHandshake (ora : HandshakeOracle) (c : Conn) :
    Option ConnError × Conn :=
  if c.isTls then
    (some .repeatHandshake, c)
  else
    let cfg := buildTLSConfig c
    let c := { c with isTls := true }
    let err := ora.err
    let err := if cfg.forceSuites && err = some .unimplementedCipher then none else err
    let c := { c with grabData := { c.grabData with tlsHandshake := some ora.log } }
    (err.map fun e => match e with
      | .unimplementedCipher => ConnError.ztlsHandshake "unimplemented cipher"
      | .other m => ConnError.ztlsHandshake m, c)

/-- conn.go `SMTP_COMMAND`. -/
def SMTP_COMMAND : String := "STARTTLS\r\n"

/-- `Conn.sendStartTLSCommand`: refuse after a TLS handshake, otherwise
write the command over the raw plaintext stream (bypassing `Conn.Write`,
so `grabData.write` is untouched); `wErr` is the outcome of that write. -/
def Conn.sendStartTLSCommand (wErr : Option String) (c : Conn) :
    Option ConnError × Conn :=
  if c.isTls then
    (some .startTLSAfterTLS, c)
  else
    (wErr.map ConnError.ioError, c)

/-- Go `strconv.Atoi` digit run: nonempty, all ASCII digits. -/
def goDigits (cs : List Char) : Option Nat :=
  if cs = [] then none
  else if cs.all Char.isDigit then
    some (cs.foldl (fun acc c => acc * 10 + (c.toNat - 48)) 0)
  else none

/-- Go `strconv.Atoi` (no overflow for the short inputs used here): an
optional sign followed by a nonempty digit run, nothing else. -/
def goAtoi (s : String) : Option Int :=
  match s.toList with
  | '+' :: rest => (goDigits rest).map Int.ofNat
  | '-' :: rest => (goDigits rest).map fun n => -(n : Int)
  | cs => (goDigits cs).map Int.ofNat

/-- Oracle for the regex-bounded network read of the STARTTLS response
(`readSmtpResponse`, external): the bytes read (`buf[0:n]`, so `n` is
its length) and the read error, if any. -/
structure ReadOracle where
  resp : String
  err : Option String
deriving DecidableEq, Repr

/-- `Conn.SMTPStartTLSHandshake`: send `STARTTLS\r\n`, read the response
and record it in `grabData.startTLS`; fewer than 5 bytes means "Server
did not indicate support for STARTTLS" (overwriting any read error);
otherwise a surviving read error propagates; otherwise the first three
characters must parse as an integer in [200, 300) or the result is "Bad
return code for STARTTLS"; only with no error does it proceed to
`TLSHandshake`. -/
def Conn.smtpStartTLSHandshake (wErr : Option String) (rd : ReadOracle)
    (hOra : HandshakeOracle) (c : Conn) : Option ConnError × Conn :=
  match c.sendStartTLSCommand wErr with
  | (some e, c) => (some e, c)
  | (none, c) =>
    let n := rd.resp.length
    let c := { c with grabData := { c.grabData with startTLS := rd.resp } }
    let err : Option ConnError := rd.err.map ConnError.ioError
    let err := if n < 5 then some .startTLSNotSupported else err
    let err := if err = none then
        match goAtoi (rd.resp.take 3) with
        | some ret => if ret < 200 ∨ 300 ≤ ret then some .badStartTLSReturnCode else none
        | none => some .badStartTLSReturnCode
      else err
    match err with
    | some e => (some e, c)
    | none => c.tlsHandshake hOra

/-- The acceptance condition of the SMTP STARTTLS gate, stated from the
claim's words: the read succeeded, at least 5 bytes arrived, and the
first three characters parse as an integer in [200, 300). -/
def smtpAccepted (rd : ReadOracle) : Bool :=
  rd.err = none && 5 ≤ rd.resp.length &&
    match goAtoi (rd.resp.take 3) with
    | some ret => 200 ≤ ret && ret < 300
    | none => false

/-- Result of the external `ztls.Conn.CheckHeartbleed` call: `none` for
success, the distinguished `ztls.HeartbleedError` sentinel, or any other
failure. -/
inductive ZtlsHbError
  | heartbleedSentinel
  | other (msg : String)
deriving DecidableEq, Repr

/-- Oracle for the external heartbleed probe: byte count, result, and
the log `GetHeartbleedLog` returns. -/
structure HeartbleedOracle where
  n : Nat
  err : Option ZtlsHbError
  log : HeartbleedLog
deriving DecidableEq, Repr

/-- Network actions a Conn operation performs, for stating that an
operation performs none. -/
inductive NetEvent
  | write (bytes : String)
  | heartbleedProbe
deriving DecidableEq, Repr

/-- `Conn.CheckHeartbleed`: before any TLS handshake it returns 0 bytes
and the "must perform TLS handshake first" error without touching the
network or the connection; afterwards it runs the probe, converts the
heartbleed sentinel into success, and records the heartbleed log. -/
def Conn.checkHeartbleed (ora : HeartbleedOracle) (c : Conn) :
    (Nat × Option ConnError) × Conn × List NetEvent :=
  if !c.isTls then
    ((0, some .heartbleedBeforeHandshake), c, [])
  else
    let err : Option ConnError := match ora.err with
      | some .heartbleedSentinel => none
      | some (.other m) => some (.ioError m)
      | none => none
    ((ora.n, err),
     { c with grabData := { c.grabData with heartbleed := some ora.log } },
     [.heartbleedProbe])

/-- `Conn.BasicBanner`: read from the underlying stream, record the bytes
in `grabData.banner`. -/
def Conn.basicBanner (rd : ReadOracle) (c : Conn) :
    (String × Option ConnError) × Conn :=
  ((rd.resp, rd.err.map ConnError.ioError),
   { c with grabData := { c.grabData with banner := rd.resp } })

/-- `Conn.Write`: write to the underlying stream, record the bytes sent
in `grabData.write`. -/
def Conn.write (sent : String) (wErr : Option String) (c : Conn) :
    (Nat × Option ConnError) × Conn :=
  ((sent.length, wErr.map ConnError.ioError),
   { c with grabData := { c.grabData with write := sent } })

/-- `Conn.Read`: read from the underlying stream, record the bytes read
in `grabData.read`. -/
def Conn.read (rd : ReadOracle) (c : Conn) :
    (Nat × Option ConnError) × Conn :=
  ((rd.resp.length, rd.err.map ConnError.ioError),
   { c with grabData := { c.grabData with read := rd.resp } })

/-- The modelled Conn operations, as state transformers on `Conn`
(results and oracles carried in the constructor arguments). -/
inductive ConnOp
  | tlsHandshakeOp (ora : HandshakeOracle)
  | sendStartTLSOp (wErr : Option String)
  | smtpStartTLSOp (wErr : Option String) (rd : ReadOracle) (ora : HandshakeOracle)
  | checkHeartbleedOp (ora : HeartbleedOracle)
  | basicBannerOp (rd : ReadOracle)
  | writeOp (sent : String) (wErr : Option String)
  | readOp (rd : ReadOracle)
deriving DecidableEq, Repr

/-- The state change each modelled operation makes on the Conn. -/
def ConnOp.apply : ConnOp → Conn → Conn
  | .tlsHandshakeOp ora, c => (c.tlsHandshake ora).2
  | .sendStartTLSOp wErr, c => (c.sendStartTLSCommand wErr).2
  | .smtpStartTLSOp wErr rd ora, c => (c.smtpStartTLSHandshake wErr rd ora).2
  | .checkHeartbleedOp ora, c => (c.checkHeartbleed ora).2.1
  | .basicBannerOp rd, c => (c.basicBanner rd).2
  | .writeOp sent wErr, c => (c.write sent wErr).2
  | .readOp rd, c => (c.read rd).2

/-- An empty `GrabData` (all Go zero values). -/
def emptyGrabData : GrabData :=
  ⟨"", "", "", "", none, none⟩

/-- A freshly constructed plaintext Conn with no policy flag set. -/
def baseConn : Conn :=
  { isTls := false
    maxTlsVersion := 771
    domain := ""
    noSNI := false
    onlyDHE := false
    onlyExports := false
    onlyExportsDH := false
    chromeCiphers := false
    chromeNoDHE := false
    firefoxCiphers := false
    firefoxNoDHECiphers := false
    safariCiphers := false
    safariNoDHECiphers := false
    extendedRandom := false
    grabData := emptyGrabData }

/-- A handshake log with nothing recorded, for concrete oracles. -/
def emptyHS : ServerHandshake :=
  ⟨none, none, none, none⟩

end ZGrab

namespace ZGrab

/-! ## Theorems -/

theorem fieldTruncated_iff (buf : List Nat) :
    fieldTruncated buf ↔ readField buf = none := by
  match buf with
  | [] => simp [fieldTruncated, readField]
  | [b] => simp [fieldTruncated, readField]
  | b0 :: b1 :: rest =>
    simp only [fieldTruncated, readField]
    constructor
    · intro h; simp [h]
    · intro h
      by_cases hlt : rest.length < b0 * 256 + b1
      · exact hlt
      · simp [hlt] at h

theorem readField_encField (f rest : List Nat) :
    readField (encField f ++ rest) = some (f, rest) := by
  have hlen : f.length / 256 * 256 + f.length % 256 = f.length := by
    omega
  simp only [encField, List.cons_append, readField, hlen]
  have hnot : ¬ (f ++ rest).length < f.length := by
    simp [List.length_append]
  simp [hnot, List.take_left, List.drop_left]

theorem readField_encField_nil (f : List Nat) :
    readField (encField f) = some (f, []) := by
  have h := readField_encField f []
  simpa using h

/-- **C1.** The DH key-exchange decoder: (success) on a buffer of exactly
three well-formed 16-bit big-endian length-prefixed fields it returns the
parameters with P, G, Ys the exact unsigned big-endian magnitudes of the
fields; (failure) on any buffer where a field read finds fewer than 2
bytes for a length prefix or a declared length exceeding the remaining
bytes, it returns `none` (`ok=false`), and being a total function it
cannot panic. -/
theorem dh_unmarshal_correct :
    (∀ p g ys : List Nat,
      p.length < 65536 → g.length < 65536 → ys.length < 65536 →
      DHParams.unmarshal (encDH3 p g ys) =
        some ⟨beBytesToNat p, beBytesToNat g, beBytesToNat ys⟩) ∧
    (∀ buf : List Nat, dhTruncated buf → DHParams.unmarshal buf = none) := by
  constructor
  · intro p g ys _ _ _
    simp [DHParams.unmarshal, encDH3, readField_encField, readField_encField_nil]
  · intro buf h
    rcases h with h1 | ⟨f1, r1, hr1, h2 | ⟨f2, r2, hr2, h3⟩⟩
    · rw [fieldTruncated_iff] at h1
      simp [DHParams.unmarshal, h1]
    · rw [fieldTruncated_iff] at h2
      simp [DHParams.unmarshal, hr1, h2]
    · rw [fieldTruncated_iff] at h3
      simp [DHParams.unmarshal, hr1, hr2, h3]

/-- Witness for C1 at concrete inputs: the buffer
`[0,1,7, 0,2,1,0, 0,1,5]` decodes to P=7, G=256, Ys=5, and the
truncated buffer `[0,5,1]` (declared length 5, one byte left) fails. -/
theorem dh_unmarshal_correct_witness :
    DHParams.unmarshal [0, 1, 7, 0, 2, 1, 0, 0, 1, 5] = some ⟨7, 256, 5⟩ ∧
    DHParams.unmarshal [0, 5, 1] = none := by
  constructor
  · have h := dh_unmarshal_correct.1 [7] [1, 0] [5]
      (by decide) (by decide) (by decide)
    simpa [encDH3, encField, beBytesToNat] using h
  · exact dh_unmarshal_correct.2 [0, 5, 1] (by simp [dhTruncated, fieldTruncated])

/-- **C2.** Starting from a log with no parameter field populated,
`setSkx` populates at most one of RSAExportParams / DHExportParams /
DHParams; a populated field implies the negotiated suite belongs to the
corresponding family (and the matching decoder succeeded); a suite in no
family populates nothing; and when the chosen decoder fails every
parameter field stays absent — only the raw key-exchange bytes are
recorded — with no error reported (the function has no error channel). -/
theorem setSkx_at_most_one (fams : CipherFamilies)
    (rsaUnmarshal : List Nat → Option RsaExportParamsRaw)
    (hs : ServerHandshake) (key : List Nat) (cipher : Nat)
    (h1 : hs.rsaExportParams = none) (h2 : hs.dhExportParams = none)
    (h3 : hs.dhParams = none) :
    (ServerHandshake.setSkx fams rsaUnmarshal hs key cipher).paramsPopulated ≤ 1 ∧
    ((ServerHandshake.setSkx fams rsaUnmarshal hs key cipher).rsaExportParams.isSome →
      cipherInList cipher fams.rsaExportCiphers = true ∧
      (rsaUnmarshal key).isSome) ∧
    ((ServerHandshake.setSkx fams rsaUnmarshal hs key cipher).dhExportParams.isSome →
      cipherInList cipher fams.rsaExportCiphers = false ∧
      cipherInList cipher fams.dheExportCiphers = true ∧
      (DHParams.unmarshal key).isSome) ∧
    ((ServerHandshake.setSkx fams rsaUnmarshal hs key cipher).dhParams.isSome →
      cipherInList cipher fams.rsaExportCiphers = false ∧
      cipherInList cipher fams.dheExportCiphers = false ∧
      cipherInList cipher fams.dheCiphers = true ∧
      (DHParams.unmarshal key).isSome) ∧
    (cipherInList cipher fams.rsaExportCiphers = false →
     cipherInList cipher fams.dheExportCiphers = false →
     cipherInList cipher fams.dheCiphers = false →
      ServerHandshake.setSkx fams rsaUnmarshal hs key cipher =
        { hs with serverKeyExchange := some ⟨key⟩ }) ∧
    ((cipherInList cipher fams.rsaExportCiphers = true → rsaUnmarshal key = none) →
     (cipherInList cipher fams.rsaExportCiphers = false → DHParams.unmarshal key = none) →
      ServerHandshake.setSkx fams rsaUnmarshal hs key cipher =
        { hs with serverKeyExchange := some ⟨key⟩ }) := by
  unfold ServerHandshake.setSkx
  by_cases hr : cipherInList cipher fams.rsaExportCiphers
  · cases hu : rsaUnmarshal key with
    | none =>
        simp [hr, hu, ServerHandshake.paramsPopulated, h1, h2, h3]
    | some p =>
        simp [hr, hu, ServerHandshake.paramsPopulated, h1, h2, h3]
  · by_cases hde : cipherInList cipher fams.dheExportCiphers
    · cases hu : DHParams.unmarshal key with
      | none =>
          simp [hr, hde, hu, ServerHandshake.paramsPopulated, h1, h2, h3]
      | some p =>
          simp [hr, hde, hu, ServerHandshake.paramsPopulated, h1, h2, h3]
    · by_cases hd : cipherInList cipher fams.dheCiphers
      · cases hu : DHParams.unmarshal key with
        | none =>
            simp [hr, hde, hd, hu, ServerHandshake.paramsPopulated, h1, h2, h3]
        | some p =>
            simp [hr, hde, hd, hu, ServerHandshake.paramsPopulated, h1, h2, h3]
      · simp [hr, hde, hd, ServerHandshake.paramsPopulated, h1, h2, h3]

/-- Witness for C2 at concrete inputs: suite `20` is in the DHE family
only, the key blob decodes, and at most one field is populated. -/
theorem setSkx_at_most_one_witness :
    (ServerHandshake.setSkx ⟨[1], [2], [20]⟩ (fun _ => none)
        ⟨none, none, none, none⟩ [0, 1, 7, 0, 1, 2, 0, 1, 5] 20).paramsPopulated ≤ 1 := by
  have h := setSkx_at_most_one ⟨[1], [2], [20]⟩ (fun _ => none)
    ⟨none, none, none, none⟩ [0, 1, 7, 0, 1, 2, 0, 1, 5] 20 rfl rfl rfl
  exact h.1

/-- **C7.** For every 16-bit value, serialization splits it into the
8-bit high byte (hash id) and 8-bit low byte (algorithm id); an id at or
beyond its name table's length yields the empty name rather than an
error; and the serialized numeric value, hash id and algorithm id equal
the original — `hashID * 256 + algID` reconstructs the value, so the
numeric id round-trips losslessly even when a name is empty. -/
theorem exportSigAlg_marshal_roundtrip (value : Nat) (h : value < 65536) :
    (ExportSignatureAlgorithm.marshalJSON value).value = value ∧
    (ExportSignatureAlgorithm.marshalJSON value).hashID = value / 256 ∧
    (ExportSignatureAlgorithm.marshalJSON value).algID = value % 256 ∧
    (ExportSignatureAlgorithm.marshalJSON value).hashID < 256 ∧
    (ExportSignatureAlgorithm.marshalJSON value).algID < 256 ∧
    (ExportSignatureAlgorithm.marshalJSON value).hashID * 256 +
      (ExportSignatureAlgorithm.marshalJSON value).algID = value ∧
    (exportHashes.length ≤ (ExportSignatureAlgorithm.marshalJSON value).hashID →
      (ExportSignatureAlgorithm.marshalJSON value).hashName = "") ∧
    (exportAlgorithms.length ≤ (ExportSignatureAlgorithm.marshalJSON value).algID →
      (ExportSignatureAlgorithm.marshalJSON value).algName = "") := by
  have hdiv : value / 256 < 256 := by omega
  have hmod : value / 256 % 256 = value / 256 := Nat.mod_eq_of_lt hdiv
  refine ⟨rfl, ?_, rfl, ?_, ?_, ?_, ?_, ?_⟩
  · simp [ExportSignatureAlgorithm.marshalJSON, hmod]
  · simp [ExportSignatureAlgorithm.marshalJSON, hmod, hdiv]
  · simp [ExportSignatureAlgorithm.marshalJSON]; omega
  · simp [ExportSignatureAlgorithm.marshalJSON, hmod]; omega
  · intro hge
    simp [ExportSignatureAlgorithm.marshalJSON, exportHashes] at hge ⊢
    omega
  · intro hge
    simp [ExportSignatureAlgorithm.marshalJSON, exportAlgorithms] at hge ⊢
    omega

/-- Witness for C7 at value `0x09FF` (hash id 9 is past the 6-entry hash
table, algorithm id 255 past the 4-entry algorithm table): both names are
empty and the ids reconstruct the value. -/
theorem exportSigAlg_marshal_roundtrip_witness :
    (ExportSignatureAlgorithm.marshalJSON 2559).hashName = "" ∧
    (ExportSignatureAlgorithm.marshalJSON 2559).algName = "" ∧
    (ExportSignatureAlgorithm.marshalJSON 2559).hashID * 256 +
      (ExportSignatureAlgorithm.marshalJSON 2559).algID = 2559 := by
  have h := exportSigAlg_marshal_roundtrip 2559 (by decide)
  exact ⟨h.2.2.2.2.2.2.1 (by decide), h.2.2.2.2.2.2.2 (by decide), h.2.2.2.2.2.1⟩

/-- **C3 counterexample.** The claim "the first true flag wins" is false:
with both the DHE-only flag (first in the check order) and the Chrome
flag set, the handshake configuration carries the Chrome list, not the
DHE list that the first set flag would select. -/
theorem first_flag_wins_false :
    (buildTLSConfig { baseConn with onlyDHE := true, chromeCiphers := true }).cipherSuites
      = some NamedCipherList.chrome ∧
    some NamedCipherList.chrome ≠ some NamedCipherList.dhe := by
  exact ⟨rfl, by decide⟩

/-- **C3 (amended).** The cipher-suite list used by TLSHandshake is the
one belonging to the *last* set flag in the fixed check order DHE-only,
export-only, export-DHE-only, Chrome, Chrome-no-DHE, Firefox,
Firefox-no-DHE, Safari, Safari-no-DHE — each later check overwrites the
earlier assignment, so the last true flag wins (and with no flag set the
engine default list is used). -/
theorem last_flag_wins (c : Conn) :
    (buildTLSConfig c).cipherSuites = lastSetFlagSuites c := by
  unfold buildTLSConfig lastSetFlagSuites
  rcases c with ⟨tls, maxV, dom, sni, d1, e1, e2, ch, chn, ff, ffn, sa, san, ext, gd⟩
  simp only
  cases d1 <;> cases e1 <;> cases e2 <;> cases ch <;> cases chn <;> cases ff <;>
    cases ffn <;> cases sa <;> cases san <;> cases ext <;> rfl

/-- **C4.** A second `TLSHandshake` on an already-established connection
returns the explicit repeat-handshake error and leaves the connection —
in particular the previously recorded handshake log in `grabData` —
unchanged. -/
theorem repeat_handshake_error (ora : HandshakeOracle) (c : Conn)
    (h : c.isTls = true) :
    c.tlsHandshake ora = (some ConnError.repeatHandshake, c) ∧
    ((c.tlsHandshake ora).2).grabData.tlsHandshake = c.grabData.tlsHandshake := by
  constructor
  · simp [Conn.tlsHandshake, h]
  · simp [Conn.tlsHandshake, h]

/-- Witness for C4: a concrete established connection gets the
repeat-handshake error and stays unchanged. -/
theorem repeat_handshake_error_witness :
    Conn.tlsHandshake ⟨none, emptyHS⟩ { baseConn with isTls := true } =
      (some ConnError.repeatHandshake, { baseConn with isTls := true }) :=
  (repeat_handshake_error ⟨none, emptyHS⟩ { baseConn with isTls := true } rfl).1

/-- **C5.** When the built handshake configuration has the force-suites
flag set and the engine handshake returns `ErrUnimplementedCipher`,
`TLSHandshake` returns success (no error) and the handshake log is still
attached to `grabData`. -/
theorem forceSuites_absorbs_unimplemented (ora : HandshakeOracle) (c : Conn)
    (h : c.isTls = false)
    (hf : (buildTLSConfig c).forceSuites = true)
    (he : ora.err = some ZtlsHsError.unimplementedCipher) :
    (c.tlsHandshake ora).1 = none ∧
    ((c.tlsHandshake ora).2).grabData.tlsHandshake = some ora.log := by
  constructor
  · simp [Conn.tlsHandshake, h, hf, he]
  · simp [Conn.tlsHandshake, h, hf, he]

/-- Witness for C5: the Safari profile (which sets force-suites) with an
engine that rejects every offered suite yields no error and an attached
log. -/
theorem forceSuites_absorbs_unimplemented_witness :
    (Conn.tlsHandshake ⟨some ZtlsHsError.unimplementedCipher, emptyHS⟩
      { baseConn with safariCiphers := true }).1 = none ∧
    ((Conn.tlsHandshake ⟨some ZtlsHsError.unimplementedCipher, emptyHS⟩
      { baseConn with safariCiphers := true }).2).grabData.tlsHandshake = some emptyHS :=
  forceSuites_absorbs_unimplemented ⟨some ZtlsHsError.unimplementedCipher, emptyHS⟩
    { baseConn with safariCiphers := true } rfl rfl rfl

/-- **C6 counterexample.** The claim that every browser-emulation
profile sets the force-suites flag is false: selecting the Chrome
profile leaves `ForceSuites` unset. -/
theorem browser_forceSuites_false :
    (buildTLSConfig { baseConn with chromeCiphers := true }).cipherSuites
      = some NamedCipherList.chrome ∧
    (buildTLSConfig { baseConn with chromeCiphers := true }).forceSuites = false :=
  ⟨rfl, rfl⟩

/-- **C6 (amended).** Exactly the Safari and Safari-no-DHE profiles set
the force-suites flag in the handshake configuration; Chrome,
Chrome-no-DHE, Firefox and Firefox-no-DHE (and all non-browser policies)
leave it unset. -/
theorem forceSuites_iff_safari (c : Conn) :
    (buildTLSConfig c).forceSuites = (c.safariCiphers || c.safariNoDHECiphers) := by
  unfold buildTLSConfig
  rcases c with ⟨tls, maxV, dom, sni, d1, e1, e2, ch, chn, ff, ffn, sa, san, ext, gd⟩
  simp only
  cases d1 <;> cases e1 <;> cases e2 <;> cases ch <;> cases chn <;> cases ff <;>
    cases ffn <;> cases sa <;> cases san <;> cases ext <;> rfl

/-- **C8.** The SMTP STARTTLS gate: with the command successfully sent,
the upgrade proceeds to `TLSHandshake` exactly when the response read
succeeded, returned at least 5 bytes, and its first three characters
parse as an integer in [200, 300); in every other case an error is
returned before the handshake, with only the STARTTLS response recorded
(the connection stays in its plaintext state). -/
theorem smtp_starttls_gate (rd : ReadOracle) (hOra : HandshakeOracle) (c : Conn)
    (hc : c.isTls = false) :
    (smtpAccepted rd = true →
      c.smtpStartTLSHandshake none rd hOra =
        Conn.tlsHandshake hOra
          { c with grabData := { c.grabData with startTLS := rd.resp } }) ∧
    (smtpAccepted rd = false →
      ∃ e, c.smtpStartTLSHandshake none rd hOra =
        (some e,
         { c with grabData := { c.grabData with startTLS := rd.resp } })) := by
  constructor
  · intro hacc
    rw [smtpAccepted] at hacc
    cases hA : goAtoi (rd.resp.take 3) with
    | none => rw [hA] at hacc; simp at hacc
    | some ret =>
      rw [hA] at hacc
      simp only [Bool.and_eq_true, decide_eq_true_eq] at hacc
      obtain ⟨⟨herr, hlen⟩, hlo, hhi⟩ := hacc
      have h5 : ¬ rd.resp.length < 5 := by omega
      have hrange : ¬ (ret < 200 ∨ 300 ≤ ret) := by omega
      simp [Conn.smtpStartTLSHandshake, Conn.sendStartTLSCommand, hc, herr, hA, h5, hrange]
  · intro hacc
    by_cases h5 : rd.resp.length < 5
    · refine ⟨ConnError.startTLSNotSupported, ?_⟩
      cases herr : rd.err with
      | none => simp [Conn.smtpStartTLSHandshake, Conn.sendStartTLSCommand, hc, herr, h5]
      | some m => simp [Conn.smtpStartTLSHandshake, Conn.sendStartTLSCommand, hc, herr, h5]
    · cases herr : rd.err with
      | some m =>
        refine ⟨ConnError.ioError m, ?_⟩
        simp [Conn.smtpStartTLSHandshake, Conn.sendStartTLSCommand, hc, herr, h5]
      | none =>
        refine ⟨ConnError.badStartTLSReturnCode, ?_⟩
        cases hA : goAtoi (rd.resp.take 3) with
        | none =>
          simp [Conn.smtpStartTLSHandshake, Conn.sendStartTLSCommand, hc, herr, h5, hA]
        | some ret =>
          have hrange : ret < 200 ∨ 300 ≤ ret := by
            by_contra hran
            rw [smtpAccepted, herr, hA] at hacc
            simp at hacc
            omega
          simp [Conn.smtpStartTLSHandshake, Conn.sendStartTLSCommand, hc, herr, h5, hA, hrange]

/-- Witness for C8: the response `"220 Go ahead\r\n"` passes the gate and
hands off to `TLSHandshake`; the response `"454 TLS unavailable\r\n"`
fails it with an error. -/
theorem smtp_starttls_gate_witness :
    (Conn.smtpStartTLSHandshake none ⟨"220 Go ahead\x0d\x0a", none⟩ ⟨none, emptyHS⟩ baseConn =
      Conn.tlsHandshake ⟨none, emptyHS⟩
        { baseConn with grabData := { emptyGrabData with startTLS := "220 Go ahead\x0d\x0a" } }) ∧
    (∃ e, Conn.smtpStartTLSHandshake none ⟨"454 TLS unavailable\x0d\x0a", none⟩ ⟨none, emptyHS⟩ baseConn =
      (some e,
       { baseConn with grabData := { emptyGrabData with startTLS := "454 TLS unavailable\x0d\x0a" } })) := by
  constructor
  · exact (smtp_starttls_gate ⟨"220 Go ahead\x0d\x0a", none⟩ ⟨none, emptyHS⟩ baseConn rfl).1
      (by decide)
  · exact (smtp_starttls_gate ⟨"454 TLS unavailable\x0d\x0a", none⟩ ⟨none, emptyHS⟩ baseConn rfl).2
      (by decide)

/-- **C9.** A heartbleed probe on a connection with no TLS handshake
returns a zero byte count and the explicit must-handshake-first error,
leaves the connection unchanged, and performs no network action at
all (in particular no write). -/
theorem heartbleed_requires_handshake (ora : HeartbleedOracle) (c : Conn)
    (h : c.isTls = false) :
    c.checkHeartbleed ora = ((0, some ConnError.heartbleedBeforeHandshake), c, []) := by
  simp [Conn.checkHeartbleed, h]

/-- Witness for C9 on a concrete plaintext connection. -/
theorem heartbleed_requires_handshake_witness :
    Conn.checkHeartbleed ⟨7, none, ⟨0⟩⟩ baseConn =
      ((0, some ConnError.heartbleedBeforeHandshake), baseConn, []) :=
  heartbleed_requires_handshake ⟨7, none, ⟨0⟩⟩ baseConn rfl

theorem tlsHandshake_isTls_true (ora : HandshakeOracle) (c : Conn) :
    ((c.tlsHandshake ora).2).isTls = true := by
  by_cases h : c.isTls
  · simp [Conn.tlsHandshake, h]
  · simp [Conn.tlsHandshake, h]

/-- **C10.** `TLSHandshake` leaves the TLS mark set whatever the engine
handshake returned (the mark is set before the engine runs); no modelled
operation ever clears the mark; consequently after any handshake attempt
— failed or not — a further `TLSHandshake` returns the repeat-handshake
error without changing the connection, and a further STARTTLS command
send returns the after-TLS error. -/
theorem failed_handshake_not_retryable :
    (∀ (ora : HandshakeOracle) (c : Conn),
      ((c.tlsHandshake ora).2).isTls = true) ∧
    (∀ (op : ConnOp) (c : Conn), c.isTls = true → (op.apply c).isTls = true) ∧
    (∀ (ora ora' : HandshakeOracle) (c : Conn),
      ((c.tlsHandshake ora).2).tlsHandshake ora' =
        (some ConnError.repeatHandshake, (c.tlsHandshake ora).2)) ∧
    (∀ (ora : HandshakeOracle) (wErr : Option String) (c : Conn),
      (((c.tlsHandshake ora).2).sendStartTLSCommand wErr).1 =
        some ConnError.startTLSAfterTLS) := by
  refine ⟨tlsHandshake_isTls_true, ?_, ?_, ?_⟩
  · intro op c h
    cases op with
    | tlsHandshakeOp ora => simp [ConnOp.apply, Conn.tlsHandshake, h]
    | sendStartTLSOp wErr => simp [ConnOp.apply, Conn.sendStartTLSCommand, h]
    | smtpStartTLSOp wErr rd ora =>
      simp [ConnOp.apply, Conn.smtpStartTLSHandshake, Conn.sendStartTLSCommand, h]
    | checkHeartbleedOp ora => simp [ConnOp.apply, Conn.checkHeartbleed, h]
    | basicBannerOp rd => simp [ConnOp.apply, Conn.basicBanner, h]
    | writeOp sent wErr => simp [ConnOp.apply, Conn.write, h]
    | readOp rd => simp [ConnOp.apply, Conn.read, h]
  · intro ora ora' c
    have h := tlsHandshake_isTls_true ora c
    generalize hg : (c.tlsHandshake ora).2 = c1 at h ⊢
    simp [Conn.tlsHandshake, h]
  · intro ora wErr c
    have h := tlsHandshake_isTls_true ora c
    generalize hg : (c.tlsHandshake ora).2 = c1 at h ⊢
    simp [Conn.sendStartTLSCommand, h]

/-- Witness for C10: a failed handshake attempt on a fresh connection
leaves the mark set, a heartbleed operation keeps it set, and the repeat
attempts error out. -/
theorem failed_handshake_not_retryable_witness :
    ((Conn.tlsHandshake ⟨some (ZtlsHsError.other "reset"), emptyHS⟩ baseConn).2).isTls = true ∧
    ((ConnOp.checkHeartbleedOp ⟨7, none, ⟨0⟩⟩).apply { baseConn with isTls := true }).isTls = true := by
  constructor
  · exact failed_handshake_not_retryable.1 ⟨some (ZtlsHsError.other "reset"), emptyHS⟩ baseConn
  · exact failed_handshake_not_retryable.2.1 (ConnOp.checkHeartbleedOp ⟨7, none, ⟨0⟩⟩)
      { baseConn with isTls := true } rfl

end ZGrab
